import Mathlib

/-
Verification development for the aio-mc-rcon RCON client.

The single source file is src/aiomcrcon/client.py.  The definitions below are
a shallow embedding of that file:

  MessageType            -> the integer constants 3, 2, 0, -1 used inline
  Client.__init__        -> mkClient
  Client.connect         -> connect
  Client._send_msg       -> sendMsg (send half: encodePacket; receive half:
                            recvMsg, decodePayload)
  Client.send_cmd        -> sendCmd (post-processing of the decoded value:
                            stripBranch, sendCmdPost)
  Client.close           -> close

Bytes are modelled as Nat (each below 256 by construction).  The asyncio
StreamReader is modelled as a list of pending data arrivals (chunks): a call
reader.read(n) returns up to n bytes taken from the bytes currently buffered
(the first pending chunk) and never waits once data is available, exactly the
semantics of asyncio.StreamReader.read, which may return fewer than n bytes.
Machine integers: struct.pack("<i", x) demands -2^31 <= x < 2^31 and emits the
four little-endian bytes of x mod 2^32; le32 / packInt32 give that byte output
on in-range arguments, and encodePacketChecked is the full embedding of the
serializer that also carries the struct.error path taken outside the range
(the serializer does fail: a body of 2^31 - 10 or more UTF-8 bytes makes the
length pack on line 64 raise).  struct.unpack("<i", b) demands len(b) == 4
and is modelled by unpackInt32, returning none (struct.error) on any other
length.
-/

deriving instance DecidableEq for Except

namespace Rcon

/-- Exception kinds raised by client.py.  Modelled from the spec: the errors
module of this repository is not under src/; per the spec (sections 4, 6, 7)
it supplies the error classes RCONConnectionError (ConnectTimeout /
ConnectionRefused / ConnectFailed), IncorrectPasswordError
(AuthenticationFailed) and ClientNotConnectedError (NotConnected), and nothing
else.  The remaining constructors are the built-in Python exceptions client.py
can raise: ValueError (line 77, the MalformedPacket case), struct.error from
unpack, UnicodeDecodeError from bytes.decode, AttributeError from using a
None transport, asyncio.TimeoutError escaping the wait_for in send_cmd, and
NameError for evaluation of an unbound module-level name. -/
inductive PyErr where
  | rconConnectionError (msg : String)
  | incorrectPassword
  | clientNotConnected
  | valueError (msg : String)
  | structError
  | unicodeDecodeError
  | attributeError
  | asyncioTimeout
  | nameError (n : String)
deriving DecidableEq

/-- Python runtime values that may be passed for the strip_colors argument of
send_cmd; bool is a distinct runtime type from int in Python even though bool
subclasses int, and isinstance(1, bool) is False. -/
inductive PyVal where
  | pyBool (b : Bool)
  | pyInt (i : Int)
  | pyStr (s : String)
  | pyNone
deriving DecidableEq

/-- Embedding of isinstance(v, bool). -/
def pyIsBool : PyVal → Bool
  | .pyBool _ => true
  | _ => false

/-- Embedding of Python truthiness for the values above. -/
def pyTruthy : PyVal → Bool
  | .pyBool b => b
  | .pyInt i => decide (i ≠ 0)
  | .pyStr s => decide (s ≠ "")
  | .pyNone => false

/-- UTF-8 encoding of one Unicode scalar value, as performed by
str.encode("utf8"); written with division and remainder by powers of two in
place of the shift-and-mask formulation of the standard. -/
def utf8EncodeChar (c : Char) : List Nat :=
  if c.toNat < 128 then [c.toNat]
  else if c.toNat < 2048 then [192 + c.toNat / 64, 128 + c.toNat % 64]
  else if c.toNat < 65536 then
    [224 + c.toNat / 4096, 128 + c.toNat / 64 % 64, 128 + c.toNat % 64]
  else
    [240 + c.toNat / 262144, 128 + c.toNat / 4096 % 64, 128 + c.toNat / 64 % 64,
     128 + c.toNat % 64]

/-- UTF-8 encoding of a character sequence. -/
def utf8EncodeList : List Char → List Nat
  | [] => []
  | c :: cs => utf8EncodeChar c ++ utf8EncodeList cs

/-- Embedding of str.encode("utf8"). -/
def utf8Encode (s : String) : List Nat :=
  utf8EncodeList s.data

mutual

/-- Strict UTF-8 decoding as performed by bytes.decode("utf8"): rejects
continuation bytes in lead position, the overlong lead bytes 192 and 193,
overlong longer forms, surrogate code points and values above 1114111, and
truncated sequences, exactly as CPython does.  The two-, three- and four-byte
forms are handled by one helper each. -/
def utf8DecodeList : List Nat → Option (List Char)
  | [] => some []
  | b0 :: bs =>
    if b0 < 128 then (utf8DecodeList bs).map (fun cs => Char.ofNat b0 :: cs)
    else if b0 < 194 then none
    else if b0 < 224 then utf8DecodeTwo b0 bs
    else if b0 < 240 then utf8DecodeThree b0 bs
    else if b0 < 245 then utf8DecodeFour b0 bs
    else none

/-- Decoding of the tail of a two-byte UTF-8 sequence with lead byte b0. -/
def utf8DecodeTwo (b0 : Nat) : List Nat → Option (List Char)
  | b1 :: bs =>
    if 128 ≤ b1 ∧ b1 < 192 then
      (utf8DecodeList bs).map (fun cs => Char.ofNat ((b0 - 192) * 64 + (b1 - 128)) :: cs)
    else none
  | [] => none

/-- Decoding of the tail of a three-byte UTF-8 sequence with lead byte b0. -/
def utf8DecodeThree (b0 : Nat) : List Nat → Option (List Char)
  | b1 :: b2 :: bs =>
    if 128 ≤ b1 ∧ b1 < 192 ∧ 128 ≤ b2 ∧ b2 < 192 ∧
        2048 ≤ (b0 - 224) * 4096 + (b1 - 128) * 64 + (b2 - 128) ∧
        ¬(55296 ≤ (b0 - 224) * 4096 + (b1 - 128) * 64 + (b2 - 128) ∧
          (b0 - 224) * 4096 + (b1 - 128) * 64 + (b2 - 128) < 57344) then
      (utf8DecodeList bs).map
        (fun cs => Char.ofNat ((b0 - 224) * 4096 + (b1 - 128) * 64 + (b2 - 128)) :: cs)
    else none
  | _ => none

/-- Decoding of the tail of a four-byte UTF-8 sequence with lead byte b0. -/
def utf8DecodeFour (b0 : Nat) : List Nat → Option (List Char)
  | b1 :: b2 :: b3 :: bs =>
    if 128 ≤ b1 ∧ b1 < 192 ∧ 128 ≤ b2 ∧ b2 < 192 ∧ 128 ≤ b3 ∧ b3 < 192 ∧
        65536 ≤ (b0 - 240) * 262144 + (b1 - 128) * 4096 + (b2 - 128) * 64 + (b3 - 128) ∧
        (b0 - 240) * 262144 + (b1 - 128) * 4096 + (b2 - 128) * 64 + (b3 - 128) < 1114112 then
      (utf8DecodeList bs).map
        (fun cs =>
          Char.ofNat ((b0 - 240) * 262144 + (b1 - 128) * 4096 + (b2 - 128) * 64 + (b3 - 128)) :: cs)
    else none
  | _ => none

end

/-- Embedding of bytes.decode("utf8"); none is a UnicodeDecodeError. -/
def utf8Decode (bs : List Nat) : Option String :=
  (utf8DecodeList bs).map String.mk

/-- Little-endian byte serialization of a 32-bit quantity, the output of
struct.pack("<i", n) for 0 <= n < 2^32 interpreted as two's complement. -/
def le32 (n : Nat) : List Nat :=
  [n % 256, n / 256 % 256, n / 65536 % 256, n / 16777216 % 256]

/-- Byte output of struct.pack("<i", i) on an argument inside its accepted
range -2^31 <= i < 2^31: the four little-endian bytes of i mod 2^32.  Outside
that range struct.pack raises struct.error instead of producing bytes; that
error path of the two pack calls of the encoder is carried by
encodePacketChecked below, which guards every packed integer with the range
demand and agrees with the unguarded byte emitters inside it. -/
def packInt32 (i : Int) : List Nat :=
  le32 (i % 4294967296).toNat

/-- Signed little-endian 32-bit value of four bytes, as decoded by
struct.unpack("<i", ...). -/
def sint32 (b0 b1 b2 b3 : Nat) : Int :=
  if b0 + 256 * b1 + 65536 * b2 + 16777216 * b3 < 2147483648 then
    ((b0 + 256 * b1 + 65536 * b2 + 16777216 * b3 : Nat) : Int)
  else ((b0 + 256 * b1 + 65536 * b2 + 16777216 * b3 : Nat) : Int) - 4294967296

/-- Embedding of struct.unpack("<i", b): demands exactly four bytes,
struct.error (none) otherwise. -/
def unpackInt32 : List Nat → Option Int
  | [b0, b1, b2, b3] => some (sint32 b0 b1 b2 b3)
  | _ => none

/-- Embedding of one call to asyncio StreamReader.read(n) over pending
arrivals: returns up to n bytes from the first pending chunk (the bytes
buffered when the call runs); returns empty bytes at end of stream.  A
leftover part of a chunk stays buffered for the next call. -/
def streamRead (n : Nat) : List (List Nat) → List Nat × List (List Nat)
  | [] => ([], [])
  | chunk :: rest =>
    if chunk.drop n = [] then (chunk.take n, rest)
    else (chunk.take n, chunk.drop n :: rest)

/-- Embedding of StreamReader.read(n) for a signed count, as called on line 74
with the declared packet length: for negative n asyncio reads until the end of
the stream. -/
def streamReadInt (n : Int) (s : List (List Nat)) : List Nat × List (List Nat) :=
  if n < 0 then (s.flatten, []) else streamRead n.toNat s

/-- Embedding of the Client object state: _ready, whether _reader and _writer
are set (not None), whether the writer transport has been closed, the pending
server bytes of the reader, and every byte written to the writer. -/
structure Client where
  host : String
  port : Nat
  password : String
  ready : Bool
  readerSet : Bool
  writerSet : Bool
  writerClosed : Bool
  incoming : List (List Nat)
  written : List Nat
deriving DecidableEq

/-- Embedding of Client.__init__ (client.py lines 18-26): a fresh client with
no transport and _ready False. -/
def mkClient (host : String) (port : Nat) (password : String) : Client :=
  { host := host, port := port, password := password, ready := false,
    readerSet := false, writerSet := false, writerClosed := false,
    incoming := [], written := [] }

/-- Serialization of one outgoing packet (client.py lines 57-64): the payload
is request id, then type, then the UTF-8 body, then two NUL bytes, prefixed
with the payload length.  No validation of the body content is performed.
This gives the emitted bytes; encodePacketChecked below is the full embedding
of the same lines, which also carries the struct.error paths of the two
struct.pack calls and equals some of this packet whenever both succeed. -/
def encodePacket (reqId : Nat) (type_ : Int) (msg : String) : List Nat :=
  let packetData := le32 reqId ++ packInt32 type_ ++ utf8Encode msg ++ [0, 0]
  le32 packetData.length ++ packetData

/-- Full embedding of the serialization on client.py lines 57-64 including
its error paths: struct.pack("<ii", req_id, type_) on line 61 raises
struct.error unless both integers are in the int32 range (the request id
drawn from randint(0, 2^31 - 1) always is), and struct.pack("<i",
len(packet_data)) on line 64 raises struct.error once the packet length
reaches 2^31, that is, once the body holds 2^31 - 10 or more UTF-8 bytes.
The packet length is a list length, hence never below the lower bound. -/
def encodePacketChecked (reqId : Nat) (type_ : Int) (msg : String) : Option (List Nat) :=
  if -2147483648 ≤ (reqId : Int) ∧ (reqId : Int) < 2147483648 ∧
      -2147483648 ≤ type_ ∧ type_ < 2147483648 then
    if ((le32 reqId ++ packInt32 type_ ++ utf8Encode msg ++ [0, 0]).length : Int) <
        2147483648 then
      some (encodePacket reqId type_ msg)
    else none
  else none

/-- Decoding of a received payload buffer (client.py lines 76-88): first the
two-NUL-terminator check (ValueError on failure), then
struct.unpack("<ii", in_data[0:8]) which reads the TYPE at offset 0 and the
request id at offset 4 (the reverse of the order the encoder wrote them; the
second value is unused), then the INVALID_AUTH comparison, then UTF-8 decoding
of in_data[8:-2]. -/
def decodePayload (inData : List Nat) : Except PyErr (String × Int) :=
  if inData.drop (inData.length - 2) = [0, 0] then
    match unpackInt32 (inData.take 4), unpackInt32 ((inData.drop 4).take 4) with
    | some inType, some _ =>
      if inType = -1 then .error .incorrectPassword
      else
        match utf8Decode ((inData.take (inData.length - 2)).drop 8) with
        | none => .error .unicodeDecodeError
        | some s => .ok (s, inType)
    | _, _ => .error .structError
  else .error (.valueError "Invalid data received from server.")

/-- Receive path of _send_msg (client.py lines 71-88): one read of four bytes
unpacked as the declared length, one read of that many bytes, then
decodePayload on whatever that read returned.  The reads are plain
StreamReader.read calls: they can return fewer bytes than requested and no
looping or length check follows. -/
def recvMsg (incoming : List (List Nat)) :
    Except PyErr (String × Int) × List (List Nat) :=
  let a := streamRead 4 incoming
  match unpackInt32 a.1 with
  | none => (.error .structError, a.2)
  | some inLen =>
    let b := streamReadInt inLen a.2
    (decodePayload b.1, b.2)

/-- Embedding of Client._send_msg (client.py lines 54-88): writes one encoded
packet, then runs the receive path.  A None writer would raise AttributeError;
both callers establish or check the transport first. -/
def sendMsg (c : Client) (reqId : Nat) (type_ : Int) (msg : String) :
    Except PyErr (String × Int) × Client :=
  if c.writerSet = false then (.error .attributeError, c)
  else
    let c1 := { c with written := c.written ++ encodePacket reqId type_ msg }
    let r := recvMsg c1.incoming
    (r.1, { c1 with incoming := r.2 })

/-- Outcome of asyncio.open_connection: success after a connection delay
together with the stream of bytes the server will send on this connection,
an active refusal, or any other transport failure. -/
inductive OpenResult where
  | opens (elapsed : Nat) (server : List (List Nat))
  | refused
  | failedOther
deriving DecidableEq

/-- Embedding of Client.connect (client.py lines 35-52).  Only the
open_connection call is raced against the timeout (asyncio.wait_for on line
42); the login round-trip on line 50 is awaited bare, with no wait_for, so the
time the login exchange takes (loginDelay) has no effect on the result.  On
success _ready becomes True; an exception from _send_msg (including
IncorrectPasswordError) propagates without closing the transport. -/
def connect (c : Client) (timeout : Nat) (openRes : OpenResult) (reqId : Nat)
    (loginDelay : Nat) : Except PyErr Unit × Client :=
  if c.ready then (.ok (), c)
  else
    match openRes with
    | .refused =>
      (.error (.rconConnectionError "The remote server refused the connection."), c)
    | .failedOther =>
      (.error (.rconConnectionError "The connection failed for an unknown reason."), c)
    | .opens elapsed server =>
      if timeout < elapsed then
        (.error (.rconConnectionError
          "A timeout occurred whilst attempting to connect to the server."), c)
      else
        let c1 := { c with readerSet := true, writerSet := true,
                           writerClosed := false, incoming := server }
        let r := sendMsg c1 reqId 3 c.password
        match r.1 with
        | .error e => (.error e, r.2)
        | .ok _ => (.ok (), { r.2 with ready := true })

/-- Guard of the colour-stripping branch of send_cmd (client.py line 95):
isinstance(strip_colors, bool) and strip_colors. -/
def stripBranch (sc : PyVal) : Bool :=
  pyIsBool sc && pyTruthy sc

/-- Post-processing send_cmd applies to the decoded value (client.py lines
95-99).  When the guard holds, line 97 evaluates re.sub, but client.py
imports only asyncio, random, struct and the error classes of the errors
module (which defines nothing but exception classes); the name re is unbound
in the module, so entering this branch raises NameError at runtime.  When the
guard does not hold, the value is returned unmodified. -/
def sendCmdPost (value : String × Int) (sc : PyVal) : Except PyErr (String × Int) :=
  if stripBranch sc then .error (.nameError "re")
  else .ok value

/-- Embedding of Client.send_cmd (client.py lines 90-99): the _ready check
(ClientNotConnectedError, before any transport access, so nothing is
written), then _send_msg raced against the timeout by asyncio.wait_for
(cmdDelay is the duration of the command round-trip; a TimeoutError escapes
uncaught), then the colour-stripping post-processing. -/
def sendCmd (c : Client) (cmd : String) (timeout cmdDelay : Nat) (reqId : Nat)
    (stripColors : PyVal) : Except PyErr (String × Int) × Client :=
  if c.ready = false then (.error .clientNotConnected, c)
  else if timeout < cmdDelay then (.error .asyncioTimeout, c)
  else
    let r := sendMsg c reqId 2 cmd
    match r.1 with
    | .error e => (.error e, r.2)
    | .ok value => (sendCmdPost value stripColors, r.2)

/-- Embedding of Client.close (client.py lines 101-111): when _ready, the
writer is closed and both stream references dropped and _ready becomes False;
otherwise nothing happens.  No statement in the body can raise. -/
def close (c : Client) : Client :=
  if c.ready then
    { c with writerClosed := true, readerSet := false, writerSet := false,
             ready := false }
  else c

/-- Server bytes of the C2 scenario: a login reply of declared length 10 whose
payload carries 0 at offset 0 (the observable response type) and an empty
body, then a reply to the list command of declared length 36 with 0 at offset
0 and the body given in the scenario.  Each reply arrives as one chunk. -/
def c2Server : List (List Nat) :=
  [[10, 0, 0, 0] ++ [0, 0, 0, 0] ++ [1, 0, 0, 0] ++ [0, 0],
   [36, 0, 0, 0] ++ [0, 0, 0, 0] ++ [2, 0, 0, 0] ++
     utf8Encode "There are 3 players online" ++ [0, 0]]

/-- Server bytes for a successful login reply (declared length 10, type 0,
empty body) arriving as one chunk. -/
def goodLoginServer : List (List Nat) :=
  [[10, 0, 0, 0] ++ [0, 0, 0, 0] ++ [1, 0, 0, 0] ++ [0, 0]]

/-- Payload of a login reply carrying INVALID_AUTH: the four bytes 255
(little-endian -1) in the slot the decoder reads as the type, four id-slot
bytes, a body, and the terminator. -/
def authFailPayload (idBytes body : List Nat) : List Nat :=
  [255, 255, 255, 255] ++ idBytes ++ body ++ [0, 0]

/-- Server bytes of an INVALID_AUTH login reply delivered as one correctly
length-prefixed chunk. -/
def authFailServer (idBytes body : List Nat) : List (List Nat) :=
  [le32 (authFailPayload idBytes body).length ++ authFailPayload idBytes body]

theorem le32_length (n : Nat) : (le32 n).length = 4 := rfl

theorem packInt32_length (i : Int) : (packInt32 i).length = 4 := rfl

theorem unpackInt32_le32 (n : Nat) (h : n < 2147483648) :
    unpackInt32 (le32 n) = some ((n : Nat) : Int) := by
  rw [le32, unpackInt32, sint32]
  have hval : n % 256 + 256 * (n / 256 % 256) + 65536 * (n / 65536 % 256) +
      16777216 * (n / 16777216 % 256) = n := by omega
  rw [hval, if_pos h]

theorem unpackInt32_some_of_length (l : List Nat) (h : l.length = 4) :
    ∃ v, unpackInt32 l = some v := by
  match l, h with
  | [a, b, c, d], _ => exact ⟨_, rfl⟩

/-- StreamReader.read(n) hands over the whole first pending chunk when it
holds at most n bytes. -/
theorem streamRead_whole_chunk (n : Nat) (c : List Nat) (rest : List (List Nat))
    (h : c.length ≤ n) : streamRead n (c :: rest) = (c, rest) := by
  rw [streamRead, if_pos (List.drop_eq_nil_of_le h), List.take_of_length_le h]

/-- StreamReader.read(4) on a chunk opening with a four-byte length prefix
returns the prefix and leaves the remainder buffered. -/
theorem streamRead_le32_head (m : Nat) (p : List Nat) (rest : List (List Nat))
    (hp : p ≠ []) : streamRead 4 ((le32 m ++ p) :: rest) = (le32 m, p :: rest) := by
  rw [streamRead]
  have hd : (le32 m ++ p).drop 4 = p := List.drop_left (le32 m) p
  have ht : (le32 m ++ p).take 4 = le32 m := List.take_left (le32 m) p
  rw [hd, ht, if_neg hp]

/-- Receiving one correctly length-prefixed packet delivered as a single
arrival consumes the whole chunk and decodes its payload. -/
theorem recvMsg_single_packet (payload : List Nat) (hne : payload ≠ [])
    (hlt : payload.length < 2147483648) :
    recvMsg [le32 payload.length ++ payload] = (decodePayload payload, []) := by
  simp only [recvMsg]
  rw [streamRead_le32_head payload.length payload [] hne]
  rw [unpackInt32_le32 payload.length hlt]
  simp only [streamReadInt]
  rw [if_neg (by omega), Int.toNat_ofNat]
  rw [streamRead_whole_chunk payload.length payload [] (le_refl _)]

/-- Decoding of a payload of the shape the encoder produces: four type-slot
bytes, four id-slot bytes, a body, and the terminator.  The decoded type is
whatever 32-bit value sits in the first four bytes. -/
theorem decodePayload_structured (t4 i4 body : List Nat) (v : Int)
    (hv : unpackInt32 t4 = some v) (ht4 : t4.length = 4) (hi4 : i4.length = 4) :
    decodePayload (t4 ++ i4 ++ body ++ [0, 0]) =
      if v = -1 then .error .incorrectPassword
      else
        match utf8Decode body with
        | none => .error .unicodeDecodeError
        | some s => .ok (s, v) := by
  have hlen : (t4 ++ i4 ++ body ++ [0, 0]).length = body.length + 10 := by
    simp [List.length_append, ht4, hi4]
    omega
  have hterm : (t4 ++ i4 ++ body ++ [0, 0]).drop ((t4 ++ i4 ++ body ++ [0, 0]).length - 2) =
      [0, 0] := by
    rw [hlen]
    have : t4 ++ i4 ++ body ++ [0, 0] = (t4 ++ i4 ++ body) ++ [0, 0] := by
      simp [List.append_assoc]
    rw [this]
    have hl : (t4 ++ i4 ++ body).length = body.length + 8 := by
      simp [List.length_append, ht4, hi4]
      omega
    rw [show body.length + 10 - 2 = (t4 ++ i4 ++ body).length by omega]
    exact List.drop_left _ _
  have htake4 : (t4 ++ i4 ++ body ++ [0, 0]).take 4 = t4 := by
    rw [show t4 ++ i4 ++ body ++ [0, 0] = t4 ++ (i4 ++ (body ++ [0, 0])) by
      simp [List.append_assoc]]
    rw [← ht4]
    exact List.take_left _ _
  have hdrop4 : ((t4 ++ i4 ++ body ++ [0, 0]).drop 4).take 4 = i4 := by
    rw [show t4 ++ i4 ++ body ++ [0, 0] = t4 ++ (i4 ++ (body ++ [0, 0])) by
      simp [List.append_assoc]]
    rw [show (4 : Nat) = t4.length from ht4.symm]
    rw [List.drop_left]
    rw [show t4.length = i4.length from by omega]
    exact List.take_left _ _
  have hslice : ((t4 ++ i4 ++ body ++ [0, 0]).take
      ((t4 ++ i4 ++ body ++ [0, 0]).length - 2)).drop 8 = body := by
    rw [hlen]
    rw [show t4 ++ i4 ++ body ++ [0, 0] = (t4 ++ i4 ++ body) ++ [0, 0] by
      simp [List.append_assoc]]
    have hl : (t4 ++ i4 ++ body).length = body.length + 8 := by
      simp [List.length_append, ht4, hi4]
      omega
    rw [show body.length + 10 - 2 = (t4 ++ i4 ++ body).length by omega]
    rw [List.take_left]
    rw [show (8 : Nat) = (t4 ++ i4).length from by simp [List.length_append, ht4, hi4]]
    exact List.drop_left _ _
  obtain ⟨w, hw⟩ := unpackInt32_some_of_length i4 hi4
  rw [decodePayload, if_pos hterm, htake4, hdrop4, hv, hw, hslice]

theorem char_valid_cases (c : Char) :
    c.toNat < 55296 ∨ (57343 < c.toNat ∧ c.toNat < 1114112) := by
  have h : Nat.isValidChar c.toNat := c.valid
  unfold Nat.isValidChar at h
  omega

theorem charOfNat_toNat (c : Char) : Char.ofNat c.toNat = c := by
  obtain ⟨⟨⟨v, hlt⟩⟩, hvalid⟩ := c
  have hv : Nat.isValidChar v := hvalid
  show Char.ofNat v = _
  unfold Char.ofNat
  rw [dif_pos hv]
  rfl

/-- Decoding after an encoded character resumes cleanly: one encoded scalar
value followed by arbitrary bytes decodes to that character consed onto the
decoding of the rest. -/
theorem utf8DecodeList_encodeChar (c : Char) (bs : List Nat) :
    utf8DecodeList (utf8EncodeChar c ++ bs) =
      (utf8DecodeList bs).map (fun cs => c :: cs) := by
  have hv := char_valid_cases c
  have hc := charOfNat_toNat c
  by_cases h1 : c.toNat < 128
  · rw [show utf8EncodeChar c = [c.toNat] from by rw [utf8EncodeChar, if_pos h1]]
    rw [List.cons_append, List.nil_append, utf8DecodeList]
    rw [if_pos h1, hc]
  · by_cases h2 : c.toNat < 2048
    · rw [show utf8EncodeChar c = [192 + c.toNat / 64, 128 + c.toNat % 64] from by
        rw [utf8EncodeChar, if_neg h1, if_pos h2]]
      simp only [List.cons_append, List.nil_append]
      rw [utf8DecodeList, if_neg (by omega), if_neg (by omega), if_pos (by omega)]
      rw [utf8DecodeTwo, if_pos (by omega)]
      have he : (192 + c.toNat / 64 - 192) * 64 + (128 + c.toNat % 64 - 128) = c.toNat := by
        omega
      rw [he, hc]
    · by_cases h3 : c.toNat < 65536
      · rw [show utf8EncodeChar c =
            [224 + c.toNat / 4096, 128 + c.toNat / 64 % 64, 128 + c.toNat % 64] from by
          rw [utf8EncodeChar, if_neg h1, if_neg h2, if_pos h3]]
        simp only [List.cons_append, List.nil_append]
        rw [utf8DecodeList, if_neg (by omega), if_neg (by omega), if_neg (by omega),
          if_pos (by omega)]
        rw [utf8DecodeThree]
        have he : (224 + c.toNat / 4096 - 224) * 4096 +
            (128 + c.toNat / 64 % 64 - 128) * 64 + (128 + c.toNat % 64 - 128) = c.toNat := by
          omega
        rw [he]
        rw [if_pos (by refine ⟨by omega, by omega, by omega, by omega, by omega, by omega⟩)]
        rw [hc]
      · rw [show utf8EncodeChar c =
            [240 + c.toNat / 262144, 128 + c.toNat / 4096 % 64, 128 + c.toNat / 64 % 64,
             128 + c.toNat % 64] from by
          rw [utf8EncodeChar, if_neg h1, if_neg h2, if_neg h3]]
        simp only [List.cons_append, List.nil_append]
        rw [utf8DecodeList, if_neg (by omega), if_neg (by omega), if_neg (by omega),
          if_neg (by omega), if_pos (by omega)]
        rw [utf8DecodeFour]
        have he : (240 + c.toNat / 262144 - 240) * 262144 +
            (128 + c.toNat / 4096 % 64 - 128) * 4096 +
            (128 + c.toNat / 64 % 64 - 128) * 64 + (128 + c.toNat % 64 - 128) = c.toNat := by
          omega
        rw [he]
        rw [if_pos (by
          refine ⟨by omega, by omega, by omega, by omega, by omega, by omega, by omega, by omega⟩)]
        rw [hc]

theorem utf8DecodeList_encodeList (l : List Char) :
    utf8DecodeList (utf8EncodeList l) = some l := by
  induction l with
  | nil => rw [utf8EncodeList, utf8DecodeList]
  | cons c cs ih =>
    rw [utf8EncodeList, utf8DecodeList_encodeChar, ih]
    rfl

/-- UTF-8 decoding is a left inverse of UTF-8 encoding on strings. -/
theorem utf8Decode_utf8Encode (s : String) : utf8Decode (utf8Encode s) = some s := by
  obtain ⟨d⟩ := s
  rw [utf8Decode, utf8Encode]
  show (utf8DecodeList (utf8EncodeList d)).map String.mk = _
  rw [utf8DecodeList_encodeList]
  rfl

/-- The decoded payload is never an RCONConnectionError: the decode path can
only produce ValueError, struct.error, IncorrectPasswordError or
UnicodeDecodeError. -/
theorem decodePayload_no_conn_error (d : List Nat) (m : String) :
    decodePayload d ≠ .error (.rconConnectionError m) := by
  rw [decodePayload]
  split
  · split
    · split
      · simp
      · split <;> simp
    · simp
  · simp

theorem recvMsg_no_conn_error (inc : List (List Nat)) (m : String) :
    (recvMsg inc).1 ≠ .error (.rconConnectionError m) := by
  simp only [recvMsg]
  split
  · simp
  · simpa using decodePayload_no_conn_error _ m

/-- The send and receive path never raises an RCONConnectionError of any
message; in particular no timeout error can originate inside _send_msg. -/
theorem sendMsg_no_conn_error (c : Client) (reqId : Nat) (type_ : Int) (msg : String)
    (m : String) : (sendMsg c reqId type_ msg).1 ≠ .error (.rconConnectionError m) := by
  simp only [sendMsg]
  split
  · simp
  · simpa using recvMsg_no_conn_error _ m

/-- Claim C1, amended.  Encoding a packet with the send path and decoding the
produced byte stream with the receive path returns the body unchanged, but
the decoded type equals the REQUEST ID of the encoded packet, not its type:
the encoder writes id-then-type while the decoder reads the type at offset 0.
The original (type, body) pair is recovered exactly when the request id
equals the type.  Stated for any request id in the range randint(0, 2^31 - 1)
draws from, any type value, and any body of wire-representable size. -/
theorem c1_roundtrip (reqId : Nat) (type_ : Int) (body : String)
    (hid : reqId < 2147483648) (hlen : (utf8Encode body).length + 10 < 2147483648) :
    (recvMsg [encodePacket reqId type_ body]).1 = .ok (body, (reqId : Int)) := by
  simp only [encodePacket]
  have hne : (le32 reqId ++ packInt32 type_ ++ utf8Encode body ++ [0, 0]) ≠ [] := by
    simp
  have hpd : (le32 reqId ++ packInt32 type_ ++ utf8Encode body ++ [0, 0]).length
      = (utf8Encode body).length + 10 := by
    simp [List.length_append, le32_length, packInt32_length]
    omega
  rw [recvMsg_single_packet _ hne (by omega)]
  rw [decodePayload_structured (le32 reqId) (packInt32 type_) (utf8Encode body)
    ((reqId : Nat) : Int) (unpackInt32_le32 reqId hid) (le32_length reqId)
    (packInt32_length type_)]
  rw [if_neg (by omega)]
  rw [utf8Decode_utf8Encode]

/-- Witness for C1 at request id 5, type 3, body "ok": the decode returns the
body and the request id 5 in the type position. -/
theorem c1_roundtrip_witness :
    (recvMsg [encodePacket 5 3 "ok"]).1 = .ok ("ok", (5 : Int)) :=
  c1_roundtrip 5 3 "ok" (by decide) (by decide)

/-- Counterexample to C1 as stated: a packet encoded with request id 0 and
type 3 decodes to type 0, not type 3, so encode-then-decode is not the
identity on (type, body). -/
theorem c1_counterexample :
    (recvMsg [encodePacket 0 3 ""]).1 = .ok ("", (0 : Int)) ∧
      (recvMsg [encodePacket 0 3 ""]).1 ≠ .ok ("", (3 : Int)) := by
  decide

/-- Claim C2.  In the scenario of the spec (login reply of type 0, then a
reply to the list command of type 0 with body "There are 3 players online"),
connect succeeds and the receive path decodes the expected pair, but
send_cmd("list") with its default strip_colors=True raises NameError instead
of returning the pair, because client.py uses re.sub without importing re. -/
theorem c2_scenario :
    (connect (mkClient "0.0.0.0" 25575 "password") 2 (.opens 0 c2Server) 1234 0).1 =
        .ok () ∧
      (connect (mkClient "0.0.0.0" 25575 "password") 2 (.opens 0 c2Server) 1234 0).2.ready =
        true ∧
      (sendMsg (connect (mkClient "0.0.0.0" 25575 "password") 2
          (.opens 0 c2Server) 1234 0).2 4321 2 "list").1 =
        .ok ("There are 3 players online", (0 : Int)) ∧
      (sendCmd (connect (mkClient "0.0.0.0" 25575 "password") 2
          (.opens 0 c2Server) 1234 0).2 "list" 2 0 4321 (.pyBool true)).1 =
        .error (.nameError "re") := by
  decide

/-- Claim C3, amended.  The receive path does not loop for exactly n bytes:
the read of the declared length returns whatever the single underlying read
produced (at most n bytes), and the decode path proceeds to parse that buffer
even when it is shorter than the declared length.  recvMsg on a length prefix
inLen followed by one arrival of at most inLen bytes parses exactly that
arrival. -/
theorem c3_short_read_parsed (inLen : Nat) (data : List Nat)
    (h1 : inLen < 2147483648) (h2 : data.length ≤ inLen) :
    recvMsg [le32 inLen, data] = (decodePayload data, []) := by
  simp only [recvMsg]
  rw [streamRead_whole_chunk 4 (le32 inLen) [data] (by rw [le32_length])]
  rw [unpackInt32_le32 inLen h1]
  simp only [streamReadInt]
  rw [if_neg (by omega), Int.toNat_ofNat]
  rw [streamRead_whole_chunk inLen data [] h2]

/-- Witness for C3 at declared length 20 with only 12 bytes delivered. -/
theorem c3_short_read_witness :
    recvMsg [le32 20, List.replicate 12 0] = (decodePayload (List.replicate 12 0), []) :=
  c3_short_read_parsed 20 (List.replicate 12 0) (by decide) (by decide)

/-- Counterexample to C3 as stated: with a declared length of 20 and only 12
bytes available, the read returns a 12-byte buffer and the receive path
parses it successfully instead of blocking for 20 bytes or failing. -/
theorem c3_counterexample :
    (recvMsg [[20, 0, 0, 0], [0, 0, 0, 0, 42, 0, 0, 0, 97, 98, 0, 0]]).1 =
        .ok ("ab", (0 : Int)) ∧
      (streamRead 20 [[0, 0, 0, 0, 42, 0, 0, 0, 97, 98, 0, 0]]).1.length = 12 := by
  decide

/-- Claim C4, amended.  A login reply whose type slot holds -1 makes connect
raise IncorrectPasswordError, leaves _ready False (so a subsequent send_cmd
fails with ClientNotConnectedError), but the transport is NOT closed: the
reader and writer stay set and the writer is never closed, because connect
does not catch the exception from _send_msg. -/
theorem c4_invalid_auth (host pw cmd : String)
    (port timeout reqId loginDelay timeout2 cmdDelay reqId2 : Nat) (sc : PyVal)
    (idBytes body : List Nat) (h4 : idBytes.length = 4)
    (hb : body.length + 10 < 2147483648) :
    (connect (mkClient host port pw) timeout (.opens 0 (authFailServer idBytes body))
        reqId loginDelay).1 = .error .incorrectPassword ∧
      (connect (mkClient host port pw) timeout (.opens 0 (authFailServer idBytes body))
        reqId loginDelay).2.ready = false ∧
      (connect (mkClient host port pw) timeout (.opens 0 (authFailServer idBytes body))
        reqId loginDelay).2.writerSet = true ∧
      (connect (mkClient host port pw) timeout (.opens 0 (authFailServer idBytes body))
        reqId loginDelay).2.writerClosed = false ∧
      (sendCmd (connect (mkClient host port pw) timeout
          (.opens 0 (authFailServer idBytes body)) reqId loginDelay).2
        cmd timeout2 cmdDelay reqId2 sc).1 = .error .clientNotConnected := by
  have hplen : (authFailPayload idBytes body).length = body.length + 10 := by
    simp [authFailPayload, List.length_append, h4]
    omega
  have hne : authFailPayload idBytes body ≠ [] := by
    simp [authFailPayload]
  have hdec : decodePayload (authFailPayload idBytes body) = .error .incorrectPassword := by
    rw [authFailPayload,
      decodePayload_structured [255, 255, 255, 255] idBytes body (-1) (by decide) rfl h4,
      if_pos rfl]
  have hrecv : recvMsg (authFailServer idBytes body) = (.error .incorrectPassword, []) := by
    rw [authFailServer, recvMsg_single_packet _ hne (by omega), hdec]
  have hconn : connect (mkClient host port pw) timeout
      (.opens 0 (authFailServer idBytes body)) reqId loginDelay =
      (.error .incorrectPassword,
        { host := host, port := port, password := pw, ready := false, readerSet := true,
          writerSet := true, writerClosed := false, incoming := [],
          written := encodePacket reqId 3 pw }) := by
    simp only [connect, mkClient, Bool.false_eq_true, if_false, Nat.not_lt_zero,
      sendMsg, hrecv]
    simp [hrecv]
  rw [hconn]
  refine ⟨rfl, rfl, rfl, rfl, rfl⟩

/-- Witness for C4 at concrete host, password, id bytes and empty body. -/
theorem c4_invalid_auth_witness :
    (connect (mkClient "h" 1 "p") 2 (.opens 0 (authFailServer [0, 0, 0, 0] []))
        0 0).1 = .error .incorrectPassword ∧
      (connect (mkClient "h" 1 "p") 2 (.opens 0 (authFailServer [0, 0, 0, 0] []))
        0 0).2.ready = false ∧
      (connect (mkClient "h" 1 "p") 2 (.opens 0 (authFailServer [0, 0, 0, 0] []))
        0 0).2.writerSet = true ∧
      (connect (mkClient "h" 1 "p") 2 (.opens 0 (authFailServer [0, 0, 0, 0] []))
        0 0).2.writerClosed = false ∧
      (sendCmd (connect (mkClient "h" 1 "p") 2 (.opens 0 (authFailServer [0, 0, 0, 0] []))
        0 0).2 "list" 2 0 0 (.pyBool true)).1 = .error .clientNotConnected :=
  c4_invalid_auth "h" "p" "list" 1 2 0 0 2 0 0 (.pyBool true) [0, 0, 0, 0] []
    (by decide) (by decide)

/-- Counterexample to C4 as stated: in the INVALID_AUTH scenario the error is
raised but the transport is left open, not closed: the writer is still set
and was never closed. -/
theorem c4_counterexample :
    (connect (mkClient "a" 1 "b") 2 (.opens 0 (authFailServer [9, 9, 9, 9] []))
        3 0).1 = .error .incorrectPassword ∧
      (connect (mkClient "a" 1 "b") 2 (.opens 0 (authFailServer [9, 9, 9, 9] []))
        3 0).2.writerSet = true ∧
      (connect (mkClient "a" 1 "b") 2 (.opens 0 (authFailServer [9, 9, 9, 9] []))
        3 0).2.writerClosed = false := by
  decide

/-- Claim C5, amended.  connect fails with the timeout RCONConnectionError
exactly when the TCP connection establishment takes longer than the timeout;
the login round-trip is not raced against the timeout (its duration is the
ignored loginDelay argument), and no error produced by the login exchange is
an RCONConnectionError, so a slow login round-trip never yields
ConnectTimeout. -/
theorem c5_timeout_scope (c : Client) (timeout elapsed reqId loginDelay : Nat)
    (server : List (List Nat)) (hr : c.ready = false) :
    (connect c timeout (.opens elapsed server) reqId loginDelay).1 =
        .error (.rconConnectionError
          "A timeout occurred whilst attempting to connect to the server.") ↔
      timeout < elapsed := by
  by_cases h : timeout < elapsed
  · simp [connect, hr, h]
  · simp only [connect, hr, h]
    simp only [Bool.false_eq_true, if_false, iff_false]
    intro habs
    split at habs
    · rename_i e heq
      simp only [Prod.fst] at habs
      injection habs with he
      exact sendMsg_no_conn_error _ _ _ _ _ (he ▸ heq)
    · simp at habs

/-- Witness for C5: with timeout 1 and connection time 5 the timeout error is
raised. -/
theorem c5_timeout_witness :
    (connect (mkClient "h" 1 "p") 1 (.opens 5 []) 0 0).1 =
        .error (.rconConnectionError
          "A timeout occurred whilst attempting to connect to the server.") ↔
      (1 : Nat) < 5 :=
  c5_timeout_scope (mkClient "h" 1 "p") 1 5 0 0 [] rfl

/-- Counterexample to C5 as stated: a login round-trip taking 100 time units
against a timeout of 2 does not fail with ConnectTimeout; connect succeeds,
because no wait_for wraps the login exchange. -/
theorem c5_counterexample :
    (connect (mkClient "host" 25575 "pw") 2 (.opens 0 goodLoginServer) 7 100).1 =
      .ok () := by
  decide

/-- Claim C6, amended.  A received payload that does not end in the two NUL
terminator bytes fails with the ValueError of line 77 (the MalformedPacket
case); a declared length below 10 does not by itself produce that error. -/
theorem c6_bad_terminator (inData : List Nat)
    (h : inData.drop (inData.length - 2) ≠ [0, 0]) :
    decodePayload inData = .error (.valueError "Invalid data received from server.") := by
  rw [decodePayload, if_neg h]

/-- Witness for C6: the three-byte payload 1 2 3 is rejected as malformed. -/
theorem c6_bad_terminator_witness :
    decodePayload [1, 2, 3] = .error (.valueError "Invalid data received from server.") :=
  c6_bad_terminator [1, 2, 3] (by decide)

/-- Counterexample to C6 as stated: a packet with declared length 8 (fewer
than 10) whose payload is eight NUL bytes decodes successfully to an empty
body of type 0 instead of failing with MalformedPacket. -/
theorem c6_counterexample :
    (recvMsg [le32 8 ++ List.replicate 8 0]).1 = .ok ("", (0 : Int)) ∧
      (recvMsg [le32 8 ++ List.replicate 8 0]).1 ≠
        .error (.valueError "Invalid data received from server.") := by
  decide

/-- Claim C7.  send_cmd on a fresh, never-connected client fails with
ClientNotConnectedError, leaves the client unchanged, and writes nothing:
the written byte log of a fresh client is empty and stays empty. -/
theorem c7_fresh_send_cmd (host pw cmd : String) (port timeout cmdDelay reqId : Nat)
    (sc : PyVal) :
    sendCmd (mkClient host port pw) cmd timeout cmdDelay reqId sc =
        (.error .clientNotConnected, mkClient host port pw) ∧
      (mkClient host port pw).written = [] :=
  ⟨rfl, rfl⟩

/-- Claim C8.  close never raises (it is a total state transition), leaves
_ready False after each of two consecutive calls, and the second call is a
no-op. -/
theorem c8_close_idempotent (c : Client) :
    (close c).ready = false ∧ (close (close c)).ready = false ∧
      close (close c) = close c := by
  by_cases h : c.ready
  · simp [close, h]
  · simp [close, h]

/-- Claim C9.  The colour-stripping branch of send_cmd runs exactly when
strip_colors is the boolean True: a truthy non-boolean value such as the
integer 1 skips the branch and the decoded value is returned unmodified, and
send_cmd behaves with any integer argument exactly as with the boolean
False. -/
theorem c9_strip_guard :
    (∀ (v : String × Int) (n : Int), n ≠ 0 → sendCmdPost v (.pyInt n) = .ok v) ∧
      (∀ (c : Client) (cmd : String) (timeout cmdDelay reqId : Nat) (n : Int),
        sendCmd c cmd timeout cmdDelay reqId (.pyInt n) =
          sendCmd c cmd timeout cmdDelay reqId (.pyBool false)) ∧
      (∀ sc : PyVal, stripBranch sc = true ↔ sc = .pyBool true) := by
  refine ⟨?_, ?_, ?_⟩
  · intro v n hn
    simp [sendCmdPost, stripBranch, pyIsBool]
  · intro c cmd timeout cmdDelay reqId n
    by_cases h1 : c.ready = false
    · simp [sendCmd, h1]
    · by_cases h2 : timeout < cmdDelay
      · simp [sendCmd, h1, h2]
      · simp only [sendCmd, h1, h2, if_false]
        cases hh : (sendMsg c reqId 2 cmd).1 <;>
          simp [hh, sendCmdPost, stripBranch, pyIsBool, pyTruthy]
  · intro sc
    cases sc <;> simp [stripBranch, pyIsBool, pyTruthy]

/-- Witness for C9: with the integer 1 the decoded value passes through
unmodified. -/
theorem c9_strip_guard_witness :
    sendCmdPost ("x", (0 : Int)) (.pyInt 1) = .ok ("x", (0 : Int)) :=
  c9_strip_guard.1 ("x", (0 : Int)) 1 (by decide)

/-- Every character of a replicated list of the letter a encodes to one UTF-8
byte, so the encoding of such a string has exactly the replication count of
bytes. -/
theorem utf8EncodeList_replicate_length (n : Nat) :
    (utf8EncodeList (List.replicate n 'a')).length = n := by
  induction n with
  | zero => rfl
  | succ k ih =>
    rw [List.replicate_succ, utf8EncodeList]
    rw [show utf8EncodeChar 'a' = [97] from rfl]
    simp [ih]

/-- Claim C10, amended.  The packet encoder validates nothing about the
content of the message body: for every request id in the range randint draws
from, every int32 type value, and every message whose body stays under
2^31 - 10 UTF-8 bytes (including bodies containing NUL bytes or the
terminator sequence), serialization succeeds and the emitted length prefix is
the UTF-8 byte length of the body plus 10, with the whole packet four bytes
longer.  Serialization does not succeed for every message string: the length
pack raises struct.error once the packet length reaches 2^31. -/
theorem c10_encoder (reqId : Nat) (type_ : Int) (msg : String)
    (hid : reqId < 2147483648) (hty1 : -2147483648 ≤ type_) (hty2 : type_ < 2147483648)
    (hlen : (utf8Encode msg).length + 10 < 2147483648) :
    encodePacketChecked reqId type_ msg = some (encodePacket reqId type_ msg) ∧
      (encodePacket reqId type_ msg).take 4 = le32 ((utf8Encode msg).length + 10) ∧
      (encodePacket reqId type_ msg).length = (utf8Encode msg).length + 14 := by
  have hpd : (le32 reqId ++ packInt32 type_ ++ utf8Encode msg ++ [0, 0]).length
      = (utf8Encode msg).length + 10 := by
    simp [List.length_append, le32_length, packInt32_length]
    omega
  refine ⟨?_, ?_, ?_⟩
  · rw [encodePacketChecked, if_pos ⟨by omega, by omega, hty1, hty2⟩,
      if_pos (by rw [hpd]; omega)]
  · simp only [encodePacket]
    rw [show (4 : Nat) =
      (le32 ((le32 reqId ++ packInt32 type_ ++ utf8Encode msg ++ [0, 0]).length)).length
      from rfl]
    rw [List.take_left, hpd]
  · simp only [encodePacket]
    simp [List.length_append, le32_length, packInt32_length]
    omega

/-- Witness for C10 at request id 7, type 2 and a body that is a single NUL
character: serialization succeeds and the length prefix is 1 + 10. -/
theorem c10_encoder_witness :
    encodePacketChecked 7 2 (String.mk ['\x00']) =
        some (encodePacket 7 2 (String.mk ['\x00'])) ∧
      (encodePacket 7 2 (String.mk ['\x00'])).take 4 =
        le32 ((utf8Encode (String.mk ['\x00'])).length + 10) ∧
      (encodePacket 7 2 (String.mk ['\x00'])).length =
        (utf8Encode (String.mk ['\x00'])).length + 14 :=
  c10_encoder 7 2 (String.mk ['\x00']) (by decide) (by decide) (by decide) (by decide)

/-- Counterexample to C10 as stated: serialization does not succeed for every
message string.  A body of 2^31 - 10 one-byte characters gives packet_data of
length exactly 2^31, and struct.pack with format i raises struct.error there,
so the encoder fails instead of emitting a packet. -/
theorem c10_counterexample :
    encodePacketChecked 0 2 (String.mk (List.replicate 2147483638 'a')) = none := by
  have hlen : (utf8Encode (String.mk (List.replicate 2147483638 'a'))).length
      = 2147483638 := by
    rw [utf8Encode]
    show (utf8EncodeList (List.replicate 2147483638 'a')).length = 2147483638
    exact utf8EncodeList_replicate_length _
  have hpd : (le32 0 ++ packInt32 2 ++
      utf8Encode (String.mk (List.replicate 2147483638 'a')) ++ [0, 0]).length
      = 2147483648 := by
    rw [List.length_append, List.length_append, List.length_append, le32_length,
      packInt32_length, hlen]
    norm_num
  rw [encodePacketChecked, if_pos (by omega), if_neg (by rw [hpd]; omega)]

end Rcon
